import Mathlib

/-!
Shallow embedding of the generic REST client of `edu-pilot-frontend`
(`src/services/api.service.ts`, `src/services/consts.ts`,
`src/services/interfaces.ts`), with theorems settling the frozen claims
about its specification.

Modelling decisions, each traceable to the source:
* JavaScript runtime values that flow through the client (request params,
  response bodies) are modelled by the inductive `JsValue`; JavaScript
  truthiness (`if (x)`) is `JsValue.truthy`.
* The JavaScript `x || d` fallback on an optional string / number is
  `jsOrStr` / `jsOrNat`: an absent value or a falsy present value
  (empty string, zero) yields the default `d`.
* `localStorage` is a function `String → Option String`
  (`getItem` returns the stored string or `null`).
* The axios transport is a function from the final outbound request to a
  response `(status, data)`; the client's code is everything around it:
  building the request from the config, the request interceptor, and the
  response handling of `_sendRequest`.
* In `_getAddress` the source's template literal interpolates
  `${endpoint}` — the whole endpoint descriptor object, not
  `endpoint.entity`.  A plain JavaScript object converts to the string
  "[object Object]", recorded here as `objectDefaultString`.
* The enum member `MethodType.PATCH` has the string value "PARCH" in the
  source (`consts.ts`), reproduced verbatim.
-/

/-- JavaScript runtime values passed through the client (params, bodies). -/
inductive JsValue where
  | null : JsValue
  | undefined : JsValue
  | bool : Bool → JsValue
  | num : Int → JsValue
  | str : String → JsValue
  | obj : List (String × JsValue) → JsValue

/-- JavaScript truthiness, as tested by `if (x)` in the source. -/
def JsValue.truthy : JsValue → Bool
  | .null => false
  | .undefined => false
  | .bool b => b
  | .num n => !(n == 0)
  | .str s => !(s == "")
  | .obj _ => true

/-- The claim C4 speaks of an "empty body": no content at all — the
transport produced no data (`null`/`undefined`) or an empty string. -/
def JsValue.isEmptyBody : JsValue → Bool
  | .null => true
  | .undefined => true
  | .str s => s == ""
  | _ => false

/-- `enum MethodType` of `consts.ts`. -/
inductive MethodType where
  | GET | POST | PUT | PATCH | DELETE
deriving DecidableEq, Repr

/-- The string value of each enum member, verbatim from `consts.ts`
(the member named `PATCH` is assigned the string "PARCH" there). -/
def MethodType.value : MethodType → String
  | .GET => "GET"
  | .POST => "POST"
  | .PUT => "PUT"
  | .PATCH => "PARCH"
  | .DELETE => "DELETE"

/-- `const BASE_URL` of `consts.ts`. -/
def BASE_URL : String := "http://localhost:8000"

/-- `const BASE_PROTOCOL` of `consts.ts`. -/
def BASE_PROTOCOL : String := "https"

/-- `const BASE_TIMEOUT` of `consts.ts` (milliseconds). -/
def BASE_TIMEOUT : Nat := 15000

/-- `const TOKEN_KEY_NAME` of `consts.ts`. -/
def TOKEN_KEY_NAME : String := "edu_pilot_sid"

/-- JavaScript `x || d` for an optional string `x`: an absent value or a
present empty string falls back to `d`. -/
def jsOrStr : Option String → String → String
  | some s, d => if s == "" then d else s
  | none, d => d

/-- JavaScript `x || d` for an optional number `x`: an absent value or a
present zero falls back to `d`. -/
def jsOrNat : Option Nat → Nat → Nat
  | some n, d => if n == 0 then d else n
  | none, d => d

/-- `interface IEndpoint` of `interfaces.ts`. -/
structure IEndpoint where
  address : Option String
  entity : String
  protocol : Option String
  timeout : Option Nat
deriving DecidableEq, Repr

/-- `interface IRequestConfig` of `interfaces.ts`; the open key-value
`params` bag is a `JsValue` (always an object in the source's call sites). -/
structure IRequestConfig where
  path : Option String
  method : MethodType
  params : Option JsValue

/-- What a plain JavaScript object becomes under default string
conversion, as happens to `${endpoint}` in the source's template literal. -/
def objectDefaultString : String := "[object Object]"

/-- `ApiService._getAddress`: the source computes
`протокол ++ "://" ++ url ++ "/" ++ String(endpoint) ++ "/"` — the final
template slot interpolates the whole `endpoint` object (not
`endpoint.entity`), which stringifies to "[object Object]". -/
def ApiService.getAddress (endpoint : IEndpoint) : String :=
  let url : String := jsOrStr endpoint.address BASE_URL
  let protocol : String := jsOrStr endpoint.protocol BASE_PROTOCOL
  protocol ++ "://" ++ url ++ "/" ++ objectDefaultString ++ "/"

/-- The configuration the constructor hands to `axios.create`. -/
structure ClientConfig where
  baseURL : String
  timeout : Nat
  contentType : String
deriving DecidableEq, Repr

/-- The `ApiService` constructor's `axios.create` argument:
`baseURL: this._getAddress(endpoint)`, `timeout: endpoint.timeout || BASE_TIMEOUT`,
header `Content-Type: application/json`. -/
def ApiService.makeClient (endpoint : IEndpoint) : ClientConfig :=
  ⟨ApiService.getAddress endpoint, jsOrNat endpoint.timeout BASE_TIMEOUT,
   "application/json"⟩

/-- The request finally handed to the transport: `_sendRequest` passes
`url` and `method` only, so `params` starts out unset (`none`) and the
interceptor may later add the `Authorization` header. -/
structure OutboundRequest where
  url : String
  method : String
  params : Option JsValue
  authorization : Option String

/-- The request object `_sendRequest` builds:
`{ url: config.path || "", method: config.method }` — note that
`config.params` is never copied into it. -/
def ApiService.buildRequest (config : IRequestConfig) : OutboundRequest :=
  ⟨jsOrStr config.path "", config.method.value, none, none⟩

/-- `ApiService._setupInterceptors`: read the token under
`TOKEN_KEY_NAME`; if it is truthy (present and non-empty) set
`Authorization: Bearer <token>`, otherwise leave the request unchanged. -/
def ApiService.applyAuthInterceptor (storage : String → Option String)
    (req : OutboundRequest) : OutboundRequest :=
  match storage TOKEN_KEY_NAME with
  | some token =>
      if token == "" then req
      else ⟨req.url, req.method, req.params, some ("Bearer " ++ token)⟩
  | none => req

/-- The request that actually leaves the client for a given config:
`_sendRequest`'s request object after the auth interceptor ran. -/
def ApiService.outbound (storage : String → Option String)
    (config : IRequestConfig) : OutboundRequest :=
  ApiService.applyAuthInterceptor storage (ApiService.buildRequest config)

/-- An axios response as `_sendRequest` sees it. -/
structure AxiosResponse where
  status : Nat
  data : JsValue

/-- The tail of `_sendRequest`:
`if (response.status === 200 && response.data) return response.data;
return {};`. -/
def ApiService.handleResponse (response : AxiosResponse) : JsValue :=
  if response.status == 200 && response.data.truthy then response.data
  else JsValue.obj []

/-- `ApiService._sendRequest` end to end: build the request from the
config, run the interceptor, hand the result to the transport, normalize
the response. -/
def ApiService.sendRequest (storage : String → Option String)
    (transport : OutboundRequest → AxiosResponse)
    (config : IRequestConfig) : JsValue :=
  ApiService.handleResponse (transport (ApiService.outbound storage config))

/-- `ApiService.get`. -/
def ApiService.get (uuid : String) : IRequestConfig :=
  ⟨some uuid, MethodType.GET, none⟩

/-- `ApiService.list`: bundles its three arguments into
`{filter, navigation, sorting}` as the config's params. -/
def ApiService.list (filter navigation sorting : JsValue) : IRequestConfig :=
  ⟨none, MethodType.GET,
   some (JsValue.obj
     [("filter", filter), ("navigation", navigation), ("sorting", sorting)])⟩

/-- `ApiService.create`: a `PUT` whose config carries `data` as params. -/
def ApiService.create (data : JsValue) : IRequestConfig :=
  ⟨none, MethodType.PUT, some data⟩

/-- `ApiService.update`: a `PATCH` to `uuid` whose config carries `data`
as params. -/
def ApiService.update (uuid : String) (data : JsValue) : IRequestConfig :=
  ⟨some uuid, MethodType.PATCH, some data⟩

/-- `ApiService.delete`. -/
def ApiService.delete (uuid : String) : IRequestConfig :=
  ⟨some uuid, MethodType.DELETE, none⟩

/-- `ApiService.call`. -/
def ApiService.call (method : MethodType) (path : Option String)
    (data : JsValue) : IRequestConfig :=
  ⟨path, method, some data⟩

/-- Helper: the normalized result is never the boolean `false` — a falsy
body is replaced by the empty object before it reaches the caller. -/
theorem ApiService.handleResponse_ne_false (r : AxiosResponse) :
    ApiService.handleResponse r ≠ JsValue.bool false := by
  unfold ApiService.handleResponse
  split
  · next hc =>
      intro h
      rw [h] at hc
      simp [JsValue.truthy] at hc
  · intro h
    exact JsValue.noConfusion h

/-- Helper: the normalized result is a string only if the response had
status 200 and a truthy body. -/
theorem ApiService.handleResponse_str_inv (r : AxiosResponse) (s : String)
    (h : ApiService.handleResponse r = JsValue.str s) :
    r.status = 200 ∧ r.data.truthy = true := by
  unfold ApiService.handleResponse at h
  split at h
  · next hc =>
      simp only [Bool.and_eq_true, beq_iff_eq] at hc
      exact hc
  · exact absurd h (fun h => JsValue.noConfusion h)

/-- Claim C1: for the descriptor with only `entity` set (to "users"),
the computed base address does use the default host and protocol, but its
entity slot holds "[object Object]" — the source interpolates the whole
descriptor object, not its `entity` field — so the address is not the
claimed one with "/users/". -/
theorem claim_C1_entity_not_in_address :
    ApiService.getAddress ⟨none, "users", none, none⟩
      = BASE_PROTOCOL ++ "://" ++ BASE_URL ++ "/" ++ objectDefaultString ++ "/"
    ∧ ApiService.getAddress ⟨none, "users", none, none⟩
      = "https://http://localhost:8000/[object Object]/"
    ∧ ApiService.getAddress ⟨none, "users", none, none⟩
      ≠ "https://http://localhost:8000/users/" :=
  ⟨rfl, rfl, by decide⟩

/-- Claim C2: `list` puts the bundle `{filter, navigation, sorting}` into
its request config, but the request actually issued carries no parameters
at all — `_sendRequest` forwards only `url` and `method`. Evaluated at a
concrete filter, navigation and sorting. -/
theorem claim_C2_list_params_not_transmitted :
    (ApiService.list (JsValue.obj [("active", JsValue.bool true)])
        (JsValue.obj [("page", JsValue.num 1), ("pageSize", JsValue.num 10)])
        (JsValue.obj [("name", JsValue.str "asc")])).params
      = some (JsValue.obj
          [("filter", JsValue.obj [("active", JsValue.bool true)]),
           ("navigation",
             JsValue.obj [("page", JsValue.num 1), ("pageSize", JsValue.num 10)]),
           ("sorting", JsValue.obj [("name", JsValue.str "asc")])])
    ∧ ApiService.buildRequest
        (ApiService.list (JsValue.obj [("active", JsValue.bool true)])
          (JsValue.obj [("page", JsValue.num 1), ("pageSize", JsValue.num 10)])
          (JsValue.obj [("name", JsValue.str "asc")]))
      = ⟨"", "GET", none, none⟩ :=
  ⟨rfl, rfl⟩

/-- Claim C3: `update("123", data)` issues a request whose method string
is "PARCH" — the enum member named `PATCH` is assigned "PARCH" in
`consts.ts` — and whose parameters are absent, `data` never being
forwarded by `_sendRequest`. -/
theorem claim_C3_update_method_is_parch :
    MethodType.PATCH.value = "PARCH"
    ∧ MethodType.PATCH.value ≠ "PATCH"
    ∧ ApiService.buildRequest
        (ApiService.update "123" (JsValue.obj [("name", JsValue.str "John Doe")]))
      = ⟨"123", "PARCH", none, none⟩ :=
  ⟨rfl, by decide, rfl⟩

/-- Claim C4 counterexample: a response with status 200 whose body is the
JSON value `false` — a non-empty body — is not returned as-is: the client
returns the empty object instead. -/
theorem claim_C4_counterexample :
    (JsValue.bool false).isEmptyBody = false
    ∧ ApiService.sendRequest (fun _ => none)
        (fun _ => ⟨200, JsValue.bool false⟩) (ApiService.get "123")
      = JsValue.obj []
    ∧ JsValue.obj [] ≠ JsValue.bool false :=
  ⟨rfl, rfl, fun h => JsValue.noConfusion h⟩

/-- Claim C4 (amended): for every storage, transport and request config,
if the transport's response has status 200 and a truthy body, the body is
returned as-is; on any other status, or a falsy body (absent, empty
string, `false`, `0`), the empty object is returned rather than a
failure. -/
theorem claim_C4_result_contract (storage : String → Option String)
    (transport : OutboundRequest → AxiosResponse) (config : IRequestConfig) :
    ((transport (ApiService.outbound storage config)).status = 200 →
      ((transport (ApiService.outbound storage config)).data).truthy = true →
      ApiService.sendRequest storage transport config
        = (transport (ApiService.outbound storage config)).data)
    ∧ (((transport (ApiService.outbound storage config)).status ≠ 200
        ∨ ((transport (ApiService.outbound storage config)).data).truthy = false) →
      ApiService.sendRequest storage transport config = JsValue.obj []) := by
  unfold ApiService.sendRequest ApiService.handleResponse
  constructor
  · intro h1 h2
    simp [h1, h2]
  · rintro (h | h) <;> simp [h]

/-- Witness for claim C4 (amended) at concrete responses: a 200 response
with body "ok" is passed through; a 404 response yields the empty
object. -/
theorem claim_C4_result_contract_witness :
    ApiService.sendRequest (fun _ => none) (fun _ => ⟨200, JsValue.str "ok"⟩)
      (ApiService.get "1") = JsValue.str "ok"
    ∧ ApiService.sendRequest (fun _ => none) (fun _ => ⟨404, JsValue.str "ok"⟩)
      (ApiService.get "1") = JsValue.obj [] :=
  ⟨(claim_C4_result_contract (fun _ => none) (fun _ => ⟨200, JsValue.str "ok"⟩)
      (ApiService.get "1")).1 rfl rfl,
   (claim_C4_result_contract (fun _ => none) (fun _ => ⟨404, JsValue.str "ok"⟩)
      (ApiService.get "1")).2 (Or.inl (by decide))⟩

/-- A storage holding the empty string as the token under the fixed key. -/
def storageWithEmptyToken : String → Option String :=
  fun key => if key == TOKEN_KEY_NAME then some "" else none

/-- A storage holding the token "abc" under the fixed key. -/
def storageWithTokenAbc : String → Option String :=
  fun key => if key == TOKEN_KEY_NAME then some "abc" else none

/-- Claim C5 counterexample: with the empty string stored as the token
under the fixed key — a token string present in storage — the outbound
request carries no Authorization header, where the claim requires
`Bearer <token>`. -/
theorem claim_C5_counterexample :
    storageWithEmptyToken TOKEN_KEY_NAME = some ""
    ∧ (ApiService.outbound storageWithEmptyToken
        (ApiService.get "123")).authorization = none :=
  ⟨rfl, rfl⟩

/-- Claim C5 (amended): for every storage and request config, if a
non-empty token string is stored under the fixed key, the outbound
request carries `Authorization: Bearer <token>`; if no token is stored,
or the stored token is the empty string, no Authorization header is set
(and the request is still issued). -/
theorem claim_C5_bearer_header (storage : String → Option String)
    (config : IRequestConfig) :
    (∀ token : String, storage TOKEN_KEY_NAME = some token → token ≠ "" →
      (ApiService.outbound storage config).authorization
        = some ("Bearer " ++ token))
    ∧ ((storage TOKEN_KEY_NAME = none ∨ storage TOKEN_KEY_NAME = some "") →
      (ApiService.outbound storage config).authorization = none) := by
  unfold ApiService.outbound ApiService.applyAuthInterceptor
  constructor
  · intro token h hne
    rw [h]
    simp [hne]
  · rintro (h | h) <;> rw [h] <;> simp [ApiService.buildRequest]

/-- Witness for claim C5 (amended): with the token "abc" stored, the
request for `get("1")` carries `Bearer abc`; with nothing stored, no
Authorization header is present. -/
theorem claim_C5_bearer_header_witness :
    (ApiService.outbound storageWithTokenAbc (ApiService.get "1")).authorization
      = some ("Bearer " ++ "abc")
    ∧ (ApiService.outbound (fun _ => none) (ApiService.get "1")).authorization
      = none :=
  ⟨(claim_C5_bearer_header storageWithTokenAbc (ApiService.get "1")).1
      "abc" rfl (by decide),
   (claim_C5_bearer_header (fun _ => none) (ApiService.get "1")).2
      (Or.inl rfl)⟩

/-- Claim C6: `create(data)` does issue a PUT, and its config carries
`data` as params, but the request actually sent has no parameters —
`_sendRequest` never forwards them. Evaluated at a concrete `data`. -/
theorem claim_C6_create_params_not_transmitted :
    (ApiService.create (JsValue.obj [("name", JsValue.str "John")])).params
      = some (JsValue.obj [("name", JsValue.str "John")])
    ∧ ApiService.buildRequest
        (ApiService.create (JsValue.obj [("name", JsValue.str "John")]))
      = ⟨"", "PUT", none, none⟩ :=
  ⟨rfl, rfl⟩

/-- Claim C7 counterexample: a descriptor explicitly supplying the empty
address, the empty protocol and timeout 0 is configured exactly like a
descriptor supplying none of them: the base address is built from
BASE_PROTOCOL and BASE_URL and the timeout is BASE_TIMEOUT, not the
supplied 0. -/
theorem claim_C7_counterexample :
    ApiService.makeClient ⟨some "", "users", some "", some 0⟩
      = ApiService.makeClient ⟨none, "users", none, none⟩
    ∧ (ApiService.makeClient ⟨some "", "users", some "", some 0⟩).timeout
      = BASE_TIMEOUT
    ∧ BASE_TIMEOUT ≠ 0 :=
  ⟨rfl, rfl, by decide⟩

/-- Claim C7 (amended): for every descriptor explicitly supplying a
non-empty address, a non-empty protocol and a non-zero timeout, those
supplied values are the ones used — they appear in the computed base
address and as the transport's timeout, overriding BASE_URL,
BASE_PROTOCOL and BASE_TIMEOUT. -/
theorem claim_C7_explicit_values_override (e : IEndpoint) (a p : String)
    (t : Nat) (ha : e.address = some a) (ha2 : a ≠ "")
    (hp : e.protocol = some p) (hp2 : p ≠ "")
    (ht : e.timeout = some t) (ht2 : t ≠ 0) :
    (ApiService.makeClient e).baseURL
      = p ++ "://" ++ a ++ "/" ++ objectDefaultString ++ "/"
    ∧ (ApiService.makeClient e).timeout = t := by
  unfold ApiService.makeClient ApiService.getAddress
  rw [ha, hp, ht]
  simp [jsOrStr, jsOrNat, ha2, hp2, ht2]

/-- Witness for claim C7 (amended) at the descriptor
`{address: "api.example.com", entity: "users", protocol: "http",
timeout: 5000}`. -/
theorem claim_C7_explicit_values_override_witness :
    (ApiService.makeClient ⟨some "api.example.com", "users", some "http",
        some 5000⟩).baseURL
      = "http" ++ "://" ++ "api.example.com" ++ "/" ++ objectDefaultString ++ "/"
    ∧ (ApiService.makeClient ⟨some "api.example.com", "users", some "http",
        some 5000⟩).timeout = 5000 :=
  claim_C7_explicit_values_override
    ⟨some "api.example.com", "users", some "http", some 5000⟩
    "api.example.com" "http" 5000 rfl (by decide) rfl (by decide) rfl
    (by decide)

/-- Claim C8: `config.params` is never transmitted — the built request of
any config has no parameters, and for every operation taking a
params/data argument (`list`, `create`, `update`, `call`), two
invocations differing only in that argument produce identical outbound
requests, whatever the stored token. -/
theorem claim_C8_params_never_transmitted :
    (∀ config : IRequestConfig, (ApiService.buildRequest config).params = none)
    ∧ (∀ (storage : String → Option String) (path : Option String)
        (method : MethodType) (p q : Option JsValue),
        ApiService.outbound storage ⟨path, method, p⟩
          = ApiService.outbound storage ⟨path, method, q⟩)
    ∧ (∀ (storage : String → Option String) (f1 n1 s1 f2 n2 s2 : JsValue),
        ApiService.outbound storage (ApiService.list f1 n1 s1)
          = ApiService.outbound storage (ApiService.list f2 n2 s2))
    ∧ (∀ (storage : String → Option String) (d1 d2 : JsValue),
        ApiService.outbound storage (ApiService.create d1)
          = ApiService.outbound storage (ApiService.create d2))
    ∧ (∀ (storage : String → Option String) (u : String) (d1 d2 : JsValue),
        ApiService.outbound storage (ApiService.update u d1)
          = ApiService.outbound storage (ApiService.update u d2))
    ∧ (∀ (storage : String → Option String) (m : MethodType)
        (pth : Option String) (d1 d2 : JsValue),
        ApiService.outbound storage (ApiService.call m pth d1)
          = ApiService.outbound storage (ApiService.call m pth d2)) :=
  ⟨fun _ => rfl, fun _ _ _ _ _ => rfl, fun _ _ _ _ _ _ _ => rfl,
   fun _ _ _ => rfl, fun _ _ _ _ => rfl, fun _ _ _ _ _ => rfl⟩

/-- Claim C9: an explicitly supplied but falsy configuration value —
empty-string address, empty-string protocol, or timeout 0 — is treated
exactly as an absent one: the computed address and the client timeout
equal those of the descriptor with the value removed, and the
corresponding default takes its place. -/
theorem claim_C9_falsy_values_replaced (e : IEndpoint) :
    (e.address = some "" →
      ApiService.getAddress e
        = ApiService.getAddress ⟨none, e.entity, e.protocol, e.timeout⟩)
    ∧ (e.protocol = some "" →
      ApiService.getAddress e
        = ApiService.getAddress ⟨e.address, e.entity, none, e.timeout⟩)
    ∧ (e.timeout = some 0 →
      (ApiService.makeClient e).timeout = BASE_TIMEOUT
      ∧ (ApiService.makeClient ⟨e.address, e.entity, e.protocol, none⟩).timeout
        = BASE_TIMEOUT) := by
  refine ⟨?_, ?_, ?_⟩ <;> intro h <;>
    simp [ApiService.getAddress, ApiService.makeClient, jsOrStr, jsOrNat, h]

/-- Witness for claim C9 at the descriptor
`{address: "", entity: "users", protocol: "", timeout: 0}`. -/
theorem claim_C9_falsy_values_replaced_witness :
    ApiService.getAddress ⟨some "", "users", some "", some 0⟩
      = ApiService.getAddress ⟨none, "users", some "", some 0⟩
    ∧ (ApiService.makeClient ⟨some "", "users", some "", some 0⟩).timeout
      = BASE_TIMEOUT :=
  ⟨(claim_C9_falsy_values_replaced ⟨some "", "users", some "", some 0⟩).1 rfl,
   ((claim_C9_falsy_values_replaced
      ⟨some "", "users", some "", some 0⟩).2.2 rfl).1⟩

/-- Claim C10: whenever the transport's response has a status other than
200 or a falsy body, `create` and `delete` resolve to the empty object
`{}`; `delete` can never resolve to the boolean `false`; and `create`
yields a string only when the response had status 200 and a truthy
body. -/
theorem claim_C10_fallback_shapes (storage : String → Option String)
    (transport : OutboundRequest → AxiosResponse) (d : JsValue)
    (uuid : String) :
    (((transport (ApiService.outbound storage (ApiService.create d))).status
        ≠ 200
      ∨ ((transport (ApiService.outbound storage
          (ApiService.create d))).data).truthy = false) →
      ApiService.sendRequest storage transport (ApiService.create d)
        = JsValue.obj [])
    ∧ (((transport (ApiService.outbound storage
          (ApiService.delete uuid))).status ≠ 200
      ∨ ((transport (ApiService.outbound storage
          (ApiService.delete uuid))).data).truthy = false) →
      ApiService.sendRequest storage transport (ApiService.delete uuid)
        = JsValue.obj [])
    ∧ ApiService.sendRequest storage transport (ApiService.delete uuid)
        ≠ JsValue.bool false
    ∧ (∀ s : String,
        ApiService.sendRequest storage transport (ApiService.create d)
          = JsValue.str s →
        (transport (ApiService.outbound storage
          (ApiService.create d))).status = 200
        ∧ ((transport (ApiService.outbound storage
            (ApiService.create d))).data).truthy = true) := by
  refine ⟨?_, ?_, ?_, ?_⟩
  · rintro (h | h) <;>
      simp [ApiService.sendRequest, ApiService.handleResponse, h]
  · rintro (h | h) <;>
      simp [ApiService.sendRequest, ApiService.handleResponse, h]
  · exact ApiService.handleResponse_ne_false _
  · intro s h
    exact ApiService.handleResponse_str_inv _ s h

/-- Witness for claim C10: against a transport answering 404 with body
"x", `create({})` resolves to `{}` and `delete("1")` does not resolve to
`false`; against a transport answering 200 with body "uuid-1",
`create({})` yields a string, and the status was indeed 200 with a truthy
body. -/
theorem claim_C10_fallback_shapes_witness :
    ApiService.sendRequest (fun _ => none) (fun _ => ⟨404, JsValue.str "x"⟩)
      (ApiService.create (JsValue.obj [])) = JsValue.obj []
    ∧ ApiService.sendRequest (fun _ => none) (fun _ => ⟨404, JsValue.str "x"⟩)
      (ApiService.delete "1") ≠ JsValue.bool false
    ∧ ((fun (_ : OutboundRequest) => AxiosResponse.mk 200 (JsValue.str "uuid-1"))
        (ApiService.outbound (fun _ => none)
          (ApiService.create (JsValue.obj [])))).status = 200 :=
  ⟨(claim_C10_fallback_shapes (fun _ => none)
      (fun _ => ⟨404, JsValue.str "x"⟩) (JsValue.obj []) "1").1
      (Or.inl (by decide)),
   (claim_C10_fallback_shapes (fun _ => none)
      (fun _ => ⟨404, JsValue.str "x"⟩) (JsValue.obj []) "1").2.2.1,
   ((claim_C10_fallback_shapes (fun _ => none)
      (fun _ => ⟨200, JsValue.str "uuid-1"⟩) (JsValue.obj []) "1").2.2.2
      "uuid-1" rfl).1⟩
